import Mathlib

/-!
Shallow embedding of `sunkit_image/flct/flct.py` (the Python wrapper around
the FLCT C library) and verification of its calling contract.

Modelling conventions:
* numpy 2D arrays become `Image`: a shape `(nx, ny)` plus flattened data as
  a `List Rat` (floats are modelled as rationals; none of the verified
  properties depend on float rounding).
* Python strings passed as the `order` argument become `PyStr`: the string
  value together with a flag recording whether the object is the interned
  literal of that value.  CPython interns string literals, so the source's
  identity tests (`order is "row"`) are modelled by `pyIs`, which is true
  exactly when the argument is the interned literal being compared against.
* every failure path in the source raises `ValueError`; this becomes
  `Except PyErr` with `PyErr.valueError` carrying the message.
* the C extension `_pyflct` is not part of the Python source; where its
  behaviour matters it is modelled from the spec (see the doc comments
  starting with `Modelled from the spec:`).
* results of successful calls carry a `BackendCall` record of the exact
  arguments handed to the C engine, so that theorems can speak about what
  was "passed onward to the computation".
-/

/-- A numpy 2D array: shape `(nx, ny)` with flattened row-major data. -/
structure Image where
  nx : Nat
  ny : Nat
  data : List Rat
deriving DecidableEq

/-- A Python string object: its text together with whether it is the
interned literal of that text (CPython interns string literals). -/
structure PyStr where
  val : String
  interned : Bool
deriving DecidableEq

/-- Python `s.lower()`. -/
def pyLower (s : String) : String :=
  ⟨s.data.map Char.toLower⟩

/-- Python's `is` test between a string object and a string literal:
true exactly when the object is the interned literal with that text. -/
def pyIs (s : PyStr) (lit : String) : Bool :=
  s.interned && s.val == lit

/-- The only error class raised by the wrapper's validation code. -/
inductive PyErr where
  | valueError (msg : String)
deriving DecidableEq

/-- Modelled from the spec: the C backend order-swap
(`_pyflct.swap_order_two` / `swap_order_three`, missing from the Python
source) reinterprets an already-loaded array's storage order by actually
permuting the underlying data (column-major to row-major), keeping the
shape. -/
def swapOrder (im : Image) : Image :=
  { nx := im.nx
    ny := im.ny
    data := (List.range (im.nx * im.ny)).map fun k =>
      im.data.getD ((k % im.nx) * im.ny + k / im.nx) 0 }

/-- Modelled from the spec: `_pyflct.swap_order_two` applies the order swap
to both arrays. -/
def swap_order_two (array1 array2 : Image) : Image × Image :=
  (swapOrder array1, swapOrder array2)

/-- Source `column_row_of_two` (flct.py lines 185-212): swaps the storage
order of two arrays by delegating to the C backend. -/
def column_row_of_two (array1 array2 : Image) : Image × Image :=
  swap_order_two array1 array2

/-- The exact argument record handed to the C tracking engine
(`_pyflct.pyflct` or `_pyflct.pyflct_plate_carree`). -/
structure BackendCall where
  transp : Int
  image1 : Image
  image2 : Image
  nx : Nat
  ny : Nat
  deltat : Rat
  deltas : Rat
  sigma : Rat
  thresh : Rat
  absflag : Int
  filter : Int
  kr : Rat
  skip : Int
  poff : Int
  qoff : Int
  interp : Int
  biascor : Int
  verbose : Int
  pc : Bool
  latmin : Rat
  latmax : Rat
deriving DecidableEq

/-- Modelled from the spec: the C tracking engine (`_pyflct.pyflct` and
`_pyflct.pyflct_plate_carree`, missing from the Python source) runs to
completion and returns a status together with flat velocity and mask
buffers of length `nx * ny` ("produces flat velocity/mask buffers" which
are then "reshaped to image-shaped outputs").  The verified properties
depend only on the buffer length, so the values are left as zeros. -/
def pyflctEngine (call : BackendCall) : Int × List Rat × List Rat × List Rat :=
  (1, List.replicate (call.nx * call.ny) 0,
      List.replicate (call.nx * call.ny) 0,
      List.replicate (call.nx * call.ny) 0)

/-- numpy `reshape((nx, ny))` of a flat vector: succeeds exactly when the
length matches, producing the list of rows. -/
def reshape2 (l : List Rat) (nx ny : Nat) : Option (List (List Rat)) :=
  if l.length = nx * ny then
    some ((List.range nx).map fun i => (List.range ny).map fun j => l.getD (i * ny + j) 0)
  else
    none

/-- The value of a successful `flct` call: the backend invocation record and
the three reshaped output arrays. -/
structure FlctResult where
  call : BackendCall
  vx : List (List Rat)
  vy : List (List Rat)
  vm : List (List Rat)
deriving DecidableEq

/-- The backend-call record built by `flct` (flct.py lines 433-488) once all
validation has passed: `transp` is hard-coded to 1. -/
def mkCall (image1 image2 : Image) (nx ny : Nat) (deltat deltas sigma thresh : Rat)
    (absflag filterI : Int) (krV : Rat) (skipV poff qoff interpI biascorI verbose : Int)
    (pc : Bool) (latmin latmax : Rat) : BackendCall :=
  { transp := 1
    image1 := image1
    image2 := image2
    nx := nx
    ny := ny
    deltat := deltat
    deltas := deltas
    sigma := sigma
    thresh := thresh
    absflag := absflag
    filter := filterI
    kr := krV
    skip := skipV
    poff := poff
    qoff := qoff
    interp := interpI
    biascor := biascorI
    verbose := verbose
    pc := pc
    latmin := latmin
    latmax := latmax }

/-- flct.py lines 416-419: a negative offset is remapped to
`skip - abs(offset)`; a non-negative offset is passed through. -/
def remapOffset (skipV off : Int) : Int :=
  if off < 0 then skipV - |off| else off

/-- flct.py lines 421-426: the internal dimension is the image dimension,
overridden to 1 when `sigma == 0`. -/
def effDim (sigma : Rat) (d : Nat) : Nat :=
  if sigma = 0 then 1 else d

/-- flct.py lines 416-497: the tail of `flct` after the `skip` and `kr`
blocks have produced numeric `skipV`, `krV` and `filterI`.  Remaps negative
offsets, derives `nx` from `image1.shape[0]` and `ny` from
`image2.shape[1]`, overrides both with 1 when `sigma == 0`, re-checks
`skip` against those dimensions (the source's `skip is not None` test is
always true at this point because `skip` was rebound to an int), calls the
engine and reshapes the flat outputs. -/
def flctAfterKr (image1 image2 : Image) (deltat deltas sigma thresh : Rat)
    (absflag : Int) (skipV poff qoff : Int) (interpI : Int) (krV : Rat) (filterI : Int)
    (biascorI verbose : Int) (pc : Bool) (latmin latmax : Rat) :
    Except PyErr FlctResult :=
  let poff2 : Int := remapOffset skipV poff
  let qoff2 : Int := remapOffset skipV qoff
  let nx : Nat := effDim sigma image1.nx
  let ny : Nat := effDim sigma image2.ny
  if (nx : Int) ≤ skipV ∨ (ny : Int) ≤ skipV then
    .error (.valueError "Skip is greater than the input dimensions")
  else
    let call := mkCall image1 image2 nx ny deltat deltas sigma thresh
      absflag filterI krV skipV poff2 qoff2 interpI biascorI verbose pc latmin latmax
    let out := pyflctEngine call
    match reshape2 out.2.1 nx ny, reshape2 out.2.2.1 nx ny, reshape2 out.2.2.2 nx ny with
    | some vx, some vy, some vm => .ok { call := call, vx := vx, vy := vy, vm := vm }
    | _, _, _ => .error (.valueError "total size of new array must be unchanged")

/-- flct.py lines 408-414: the `kr` block.  A supplied `kr` must satisfy
`0 < kr < 20`, enabling the low-pass filter; an absent `kr` becomes 0 with
the filter disabled. -/
def flctAfterSkip (image1 image2 : Image) (deltat deltas sigma thresh : Rat)
    (absflag : Int) (skipV poff qoff : Int) (interpI : Int) (kr : Option Rat)
    (biascorI verbose : Int) (pc : Bool) (latmin latmax : Rat) :
    Except PyErr FlctResult :=
  match kr with
  | some k =>
    if k ≤ 0 ∨ 20 ≤ k then
      .error (.valueError "The value of kr must be between 0 and 20.")
    else
      flctAfterKr image1 image2 deltat deltas sigma thresh absflag
        skipV poff qoff interpI k 1 biascorI verbose pc latmin latmax
  | none =>
    flctAfterKr image1 image2 deltat deltas sigma thresh absflag
      skipV poff qoff interpI 0 0 biascorI verbose pc latmin latmax

/-- Source `flct` (flct.py lines 247-497).  Validates the `order` selector
case-insensitively, swaps storage order when `order is "column"` (an
identity test against the interned literal), normalizes the boolean flags,
validates the `skip`/`poff`/`qoff` block (the source also computes an
unused `skipon`), then continues with the `kr` block and the engine call. -/
def flct (image1 image2 : Image) (order : PyStr) (deltat deltas sigma : Rat)
    (quiet biascor : Bool) (thresh : Rat) (absflag : Bool)
    (skip : Option Int) (poff qoff : Int) (interp : Bool) (kr : Option Rat)
    (pc : Bool) (latmin latmax : Rat) : Except PyErr FlctResult :=
  if pyLower order.val ∉ (["row", "column"] : List String) then
    .error (.valueError "The order of the arrays is not correctly specified. It can only be row or column")
  else
    let images := if pyIs order "column" then column_row_of_two image1 image2
                  else (image1, image2)
    let image1 := images.1
    let image2 := images.2
    let verbose : Int := if quiet then 0 else 1
    let biascorI : Int := if biascor then 1 else 0
    let absflagI : Int := if absflag then 1 else 0
    let interpI : Int := if interp then 1 else 0
    match skip with
    | some s =>
      if s ≤ 0 then
        .error (.valueError "Skip value must be greater than zero.")
      else if s ≤ |poff| ∨ s ≤ |qoff| then
        .error (.valueError "The absolute value of poff and qoff must be less than skip.")
      else
        flctAfterSkip image1 image2 deltat deltas sigma thresh absflagI
          s poff qoff interpI kr biascorI verbose pc latmin latmax
    | none =>
      flctAfterSkip image1 image2 deltat deltas sigma thresh absflagI
        0 poff qoff interpI kr biascorI verbose pc latmin latmax

/-- Result of a successful codec read of two arrays, recording the `transp`
value that was handed to the C backend. -/
structure ReadCall2 where
  transp : Int
  a : Image
  b : Image
deriving DecidableEq

/-- Result of a successful codec read of three arrays. -/
structure ReadCall3 where
  transp : Int
  a : Image
  b : Image
  c : Image
deriving DecidableEq

/-- Result of a successful codec write, recording the `transp` value handed
to the C backend. -/
structure WriteCall where
  transp : Int
deriving DecidableEq

/-- Modelled from the spec: the C codec read backend
(`_pyflct.read_two_images`, missing from the Python source) returns a
success status 1 and the two decoded arrays. -/
def read_two_images_backend (_filename : String) (_transp : Int) : Int × Image × Image :=
  (1, ⟨0, 0, []⟩, ⟨0, 0, []⟩)

/-- Modelled from the spec: the C codec read backend
(`_pyflct.read_three_images`, missing from the Python source) returns a
success status 1 and the three decoded arrays. -/
def read_three_images_backend (_filename : String) (_transp : Int) :
    Int × Image × Image × Image :=
  (1, ⟨0, 0, []⟩, ⟨0, 0, []⟩, ⟨0, 0, []⟩)

/-- Modelled from the spec: the C codec write backend
(`_pyflct.write_two_images` / `write_three_images`, missing from the Python
source) returns a success status 1. -/
def write_images_backend (_filename : String) (_transp : Int) : Int :=
  1

/-- Source `read_2_images` (flct.py lines 17-58): validates `order`
case-insensitively, then sets `transp = 0` only when `order is "row"` (an
identity test against the interned literal), and calls the backend.  The
returned record keeps the `transp` that was passed. -/
def read_2_images (filename : String) (order : PyStr) : Except PyErr ReadCall2 :=
  if pyLower order.val ∉ (["row", "column"] : List String) then
    .error (.valueError "The order of the arrays is not correctly specified. It can only be row or column")
  else
    let transp : Int := if pyIs order "row" then 0 else 1
    let out := read_two_images_backend filename transp
    if out.1 ≠ 1 then
      .error (.valueError "The file was not read correctly. Please check the file.")
    else
      .ok ⟨transp, out.2.1, out.2.2⟩

/-- Source `read_3_images` (flct.py lines 61-102): same pattern with three
arrays. -/
def read_3_images (filename : String) (order : PyStr) : Except PyErr ReadCall3 :=
  if pyLower order.val ∉ (["row", "column"] : List String) then
    .error (.valueError "The order of the arrays is not correctly specified. It can only be row or column")
  else
    let transp : Int := if pyIs order "row" then 0 else 1
    let out := read_three_images_backend filename transp
    if out.1 ≠ 1 then
      .error (.valueError "The file was not read correctly. Please check the file")
    else
      .ok ⟨transp, out.2.1, out.2.2.1, out.2.2.2⟩

/-- Source `write_2_images` (flct.py lines 105-141): same validation and
dispatch pattern before writing two arrays. -/
def write_2_images (filename : String) (array1 array2 : Image) (order : PyStr) :
    Except PyErr WriteCall :=
  if pyLower order.val ∉ (["row", "column"] : List String) then
    .error (.valueError "The order of the arrays is not correctly specified. It can only be row or column")
  else
    let transp : Int := if pyIs order "row" then 0 else 1
    let ier := write_images_backend filename transp
    if ier ≠ 1 then
      .error (.valueError "The file was not read correctly. Please check the file")
    else
      .ok ⟨transp⟩

/-- Source `write_3_images` (flct.py lines 144-182): same validation and
dispatch pattern before writing three arrays. -/
def write_3_images (filename : String) (array1 array2 array3 : Image) (order : PyStr) :
    Except PyErr WriteCall :=
  if pyLower order.val ∉ (["row", "column"] : List String) then
    .error (.valueError "The order of the arrays is not correctly specified. It can only be row or column")
  else
    let transp : Int := if pyIs order "row" then 0 else 1
    let ier := write_images_backend filename transp
    if ier ≠ 1 then
      .error (.valueError "The file was not read correctly. Please check the file")
    else
      .ok ⟨transp⟩

/-- The nx-by-ny all-zero row list, the shape of the engine's reshaped
output in this model. -/
def zeros2 (nx ny : Nat) : List (List Rat) :=
  (List.range nx).map fun _ => (List.range ny).map fun _ => (0 : Rat)

/-- Whether a row list has exactly `nx` rows, each of length `ny`. -/
def hasShapeB (m : List (List Rat)) (nx ny : Nat) : Bool :=
  m.length == nx && m.all fun row => row.length == ny

/-- The result of a successful call, `none` on error. -/
def resOpt : Except PyErr FlctResult → Option FlctResult
  | .ok r => some r
  | .error _ => none

/-- Whether a call succeeded. -/
def isOkB : Except PyErr FlctResult → Bool
  | .ok _ => true
  | .error _ => false

/-- The `ValueError` message of a failed call, `none` on success. -/
def errMsg : Except PyErr FlctResult → Option String
  | .ok _ => none
  | .error (.valueError m) => some m

/-- The pair of images handed to the C engine by a successful call. -/
def callImages (e : Except PyErr FlctResult) : Option (Image × Image) :=
  (resOpt e).map fun r => (r.call.image1, r.call.image2)

/-- The `(poff, qoff)` pair handed to the C engine by a successful call. -/
def callOffsets (e : Except PyErr FlctResult) : Option (Int × Int) :=
  (resOpt e).map fun r => (r.call.poff, r.call.qoff)

/-- The `(filter, kr)` pair handed to the C engine by a successful call. -/
def callFilterKr (e : Except PyErr FlctResult) : Option (Int × Rat) :=
  (resOpt e).map fun r => (r.call.filter, r.call.kr)

/-- True when a call succeeded and all three outputs have shape
`(nx, ny)`. -/
def outputsShaped (e : Except PyErr FlctResult) (nx ny : Nat) : Bool :=
  match e with
  | .ok r => hasShapeB r.vx nx ny && hasShapeB r.vy nx ny && hasShapeB r.vm nx ny
  | .error _ => false

/-- The result record produced by a fully successful `flct` computation in
this model: the backend-call record with remapped offsets and the
sigma-adjusted dimensions, and all-zero output grids of those dimensions. -/
def flctSuccess (image1 image2 : Image) (deltat deltas sigma thresh : Rat)
    (absflag : Int) (skipV poff qoff : Int) (interpI : Int) (krV : Rat) (filterI : Int)
    (biascorI verbose : Int) (pc : Bool) (latmin latmax : Rat) : FlctResult :=
  let nx : Nat := effDim sigma image1.nx
  let ny : Nat := effDim sigma image2.ny
  { call := mkCall image1 image2 nx ny deltat deltas sigma thresh absflag filterI krV
      skipV (remapOffset skipV poff) (remapOffset skipV qoff)
      interpI biascorI verbose pc latmin latmax
    vx := zeros2 nx ny
    vy := zeros2 nx ny
    vm := zeros2 nx ny }

lemma getD_replicate_zero (k i : Nat) : (List.replicate k (0 : Rat)).getD i 0 = 0 := by
  induction k generalizing i with
  | zero => simp
  | succ n ih =>
    cases i with
    | zero => simp [List.replicate]
    | succ j => simp [List.replicate, ih j]

lemma reshape2_replicate (n m : Nat) :
    reshape2 (List.replicate (n * m) 0) n m = some (zeros2 n m) := by
  simp [reshape2, zeros2, getD_replicate_zero]

lemma hasShapeB_zeros2 (n m : Nat) : hasShapeB (zeros2 n m) n m = true := by
  simp [hasShapeB, zeros2, List.all_eq_true]

lemma flctAfterKr_eq (i1 i2 : Image) (dt ds σ th : Rat) (ab : Int)
    (s p q it : Int) (k : Rat) (f bc vb : Int) (pcb : Bool) (lmin lmax : Rat) :
    flctAfterKr i1 i2 dt ds σ th ab s p q it k f bc vb pcb lmin lmax =
      if (effDim σ i1.nx : Int) ≤ s ∨ (effDim σ i2.ny : Int) ≤ s then
        .error (.valueError "Skip is greater than the input dimensions")
      else
        .ok (flctSuccess i1 i2 dt ds σ th ab s p q it k f bc vb pcb lmin lmax) := by
  unfold flctAfterKr flctSuccess
  simp only [pyflctEngine, mkCall, reshape2_replicate]

lemma isOkB_error (e : PyErr) : isOkB (.error e) = false := rfl

lemma errMsg_error (m : String) : errMsg (.error (.valueError m)) = some m := rfl

lemma flct_some_skip
    (i1 i2 : Image) (ord : PyStr) (dt ds σ : Rat) (qt bc : Bool) (th : Rat) (ab : Bool)
    (s p q : Int) (ip : Bool) (kr : Option Rat) (pcb : Bool) (lmin lmax : Rat)
    (hord : pyLower ord.val ∈ (["row", "column"] : List String)) :
    flct i1 i2 ord dt ds σ qt bc th ab (some s) p q ip kr pcb lmin lmax =
      (let images := if pyIs ord "column" then column_row_of_two i1 i2 else (i1, i2)
       if s ≤ 0 then
         Except.error (PyErr.valueError "Skip value must be greater than zero.")
       else if s ≤ |p| ∨ s ≤ |q| then
         Except.error (PyErr.valueError "The absolute value of poff and qoff must be less than skip.")
       else
         flctAfterSkip images.1 images.2 dt ds σ th (if ab then 1 else 0) s p q
           (if ip then 1 else 0) kr (if bc then 1 else 0) (if qt then 0 else 1)
           pcb lmin lmax) := by
  unfold flct
  rw [if_neg (not_not_intro hord)]

lemma flct_none_skip
    (i1 i2 : Image) (ord : PyStr) (dt ds σ : Rat) (qt bc : Bool) (th : Rat) (ab : Bool)
    (p q : Int) (ip : Bool) (kr : Option Rat) (pcb : Bool) (lmin lmax : Rat)
    (hord : pyLower ord.val ∈ (["row", "column"] : List String)) :
    flct i1 i2 ord dt ds σ qt bc th ab none p q ip kr pcb lmin lmax =
      (let images := if pyIs ord "column" then column_row_of_two i1 i2 else (i1, i2)
       flctAfterSkip images.1 images.2 dt ds σ th (if ab then 1 else 0) 0 p q
         (if ip then 1 else 0) kr (if bc then 1 else 0) (if qt then 0 else 1)
         pcb lmin lmax) := by
  unfold flct
  rw [if_neg (not_not_intro hord)]

lemma flct_invalid_order
    (i1 i2 : Image) (ord : PyStr) (dt ds σ : Rat) (qt bc : Bool) (th : Rat) (ab : Bool)
    (sk : Option Int) (p q : Int) (ip : Bool) (kr : Option Rat) (pcb : Bool)
    (lmin lmax : Rat)
    (hord : pyLower ord.val ∉ (["row", "column"] : List String)) :
    flct i1 i2 ord dt ds σ qt bc th ab sk p q ip kr pcb lmin lmax =
      .error (.valueError "The order of the arrays is not correctly specified. It can only be row or column") := by
  unfold flct
  rw [if_pos hord]

lemma flctAfterKr_ok_shape (i1 i2 : Image) (dt ds σ th : Rat) (ab : Int)
    (s p q it : Int) (k : Rat) (f bc vb : Int) (pcb : Bool) (lmin lmax : Rat)
    (hok : isOkB (flctAfterKr i1 i2 dt ds σ th ab s p q it k f bc vb pcb lmin lmax) = true) :
    outputsShaped (flctAfterKr i1 i2 dt ds σ th ab s p q it k f bc vb pcb lmin lmax)
      (effDim σ i1.nx) (effDim σ i2.ny) = true := by
  rw [flctAfterKr_eq] at hok ⊢
  by_cases hd : (effDim σ i1.nx : Int) ≤ s ∨ (effDim σ i2.ny : Int) ≤ s
  · rw [if_pos hd] at hok
    exact absurd hok (by simp [isOkB])
  · rw [if_neg hd]
    simp [outputsShaped, flctSuccess, hasShapeB_zeros2]

lemma flctAfterKr_callImages (i1 i2 : Image) (dt ds σ th : Rat) (ab : Int)
    (s p q it : Int) (k : Rat) (f bc vb : Int) (pcb : Bool) (lmin lmax : Rat)
    (hok : isOkB (flctAfterKr i1 i2 dt ds σ th ab s p q it k f bc vb pcb lmin lmax) = true) :
    callImages (flctAfterKr i1 i2 dt ds σ th ab s p q it k f bc vb pcb lmin lmax) =
      some (i1, i2) := by
  rw [flctAfterKr_eq] at hok ⊢
  by_cases hd : (effDim σ i1.nx : Int) ≤ s ∨ (effDim σ i2.ny : Int) ≤ s
  · rw [if_pos hd] at hok
    exact absurd hok (by simp [isOkB])
  · rw [if_neg hd]
    simp [callImages, resOpt, flctSuccess, mkCall]

lemma flctAfterKr_callOffsets (i1 i2 : Image) (dt ds σ th : Rat) (ab : Int)
    (s p q it : Int) (k : Rat) (f bc vb : Int) (pcb : Bool) (lmin lmax : Rat)
    (hok : isOkB (flctAfterKr i1 i2 dt ds σ th ab s p q it k f bc vb pcb lmin lmax) = true) :
    callOffsets (flctAfterKr i1 i2 dt ds σ th ab s p q it k f bc vb pcb lmin lmax) =
      some (remapOffset s p, remapOffset s q) := by
  rw [flctAfterKr_eq] at hok ⊢
  by_cases hd : (effDim σ i1.nx : Int) ≤ s ∨ (effDim σ i2.ny : Int) ≤ s
  · rw [if_pos hd] at hok
    exact absurd hok (by simp [isOkB])
  · rw [if_neg hd]
    simp [callOffsets, resOpt, flctSuccess, mkCall]

lemma flctAfterSkip_ok_shape (i1 i2 : Image) (dt ds σ th : Rat) (ab : Int)
    (s p q it : Int) (kr : Option Rat) (bc vb : Int) (pcb : Bool) (lmin lmax : Rat)
    (hok : isOkB (flctAfterSkip i1 i2 dt ds σ th ab s p q it kr bc vb pcb lmin lmax) = true) :
    outputsShaped (flctAfterSkip i1 i2 dt ds σ th ab s p q it kr bc vb pcb lmin lmax)
      (effDim σ i1.nx) (effDim σ i2.ny) = true := by
  rcases kr with _ | k
  · exact flctAfterKr_ok_shape i1 i2 dt ds σ th ab s p q it 0 0 bc vb pcb lmin lmax hok
  · dsimp only [flctAfterSkip] at hok ⊢
    by_cases hk : k ≤ 0 ∨ 20 ≤ k
    · rw [if_pos hk] at hok
      exact absurd hok (by simp [isOkB])
    · rw [if_neg hk] at hok ⊢
      exact flctAfterKr_ok_shape i1 i2 dt ds σ th ab s p q it k 1 bc vb pcb lmin lmax hok

lemma flctAfterSkip_callImages (i1 i2 : Image) (dt ds σ th : Rat) (ab : Int)
    (s p q it : Int) (kr : Option Rat) (bc vb : Int) (pcb : Bool) (lmin lmax : Rat)
    (hok : isOkB (flctAfterSkip i1 i2 dt ds σ th ab s p q it kr bc vb pcb lmin lmax) = true) :
    callImages (flctAfterSkip i1 i2 dt ds σ th ab s p q it kr bc vb pcb lmin lmax) =
      some (i1, i2) := by
  rcases kr with _ | k
  · exact flctAfterKr_callImages i1 i2 dt ds σ th ab s p q it 0 0 bc vb pcb lmin lmax hok
  · dsimp only [flctAfterSkip] at hok ⊢
    by_cases hk : k ≤ 0 ∨ 20 ≤ k
    · rw [if_pos hk] at hok
      exact absurd hok (by simp [isOkB])
    · rw [if_neg hk] at hok ⊢
      exact flctAfterKr_callImages i1 i2 dt ds σ th ab s p q it k 1 bc vb pcb lmin lmax hok

lemma flctAfterSkip_callOffsets (i1 i2 : Image) (dt ds σ th : Rat) (ab : Int)
    (s p q it : Int) (kr : Option Rat) (bc vb : Int) (pcb : Bool) (lmin lmax : Rat)
    (hok : isOkB (flctAfterSkip i1 i2 dt ds σ th ab s p q it kr bc vb pcb lmin lmax) = true) :
    callOffsets (flctAfterSkip i1 i2 dt ds σ th ab s p q it kr bc vb pcb lmin lmax) =
      some (remapOffset s p, remapOffset s q) := by
  rcases kr with _ | k
  · exact flctAfterKr_callOffsets i1 i2 dt ds σ th ab s p q it 0 0 bc vb pcb lmin lmax hok
  · dsimp only [flctAfterSkip] at hok ⊢
    by_cases hk : k ≤ 0 ∨ 20 ≤ k
    · rw [if_pos hk] at hok
      exact absurd hok (by simp [isOkB])
    · rw [if_neg hk] at hok ⊢
      exact flctAfterKr_callOffsets i1 i2 dt ds σ th ab s p q it k 1 bc vb pcb lmin lmax hok

/-- C3: for every call to `flct` with `skip` set, if `skip` is not a
positive integer, or `|poff| >= skip`, or `|qoff| >= skip`, the call fails
with a `ValueError` (one of the two skip-block messages) before any
tracking computation; in particular `skip=5, poff=5` is rejected. -/
theorem flct_rejects_invalid_skip_block
    (i1 i2 : Image) (ord : PyStr) (dt ds σ : Rat) (qt bc : Bool) (th : Rat) (ab : Bool)
    (s p q : Int) (ip : Bool) (kr : Option Rat) (pcb : Bool) (lmin lmax : Rat)
    (hord : pyLower ord.val ∈ (["row", "column"] : List String))
    (hbad : s ≤ 0 ∨ |p| ≥ s ∨ |q| ≥ s) :
    errMsg (flct i1 i2 ord dt ds σ qt bc th ab (some s) p q ip kr pcb lmin lmax) =
        some "Skip value must be greater than zero." ∨
    errMsg (flct i1 i2 ord dt ds σ qt bc th ab (some s) p q ip kr pcb lmin lmax) =
        some "The absolute value of poff and qoff must be less than skip." := by
  rw [flct_some_skip i1 i2 ord dt ds σ qt bc th ab s p q ip kr pcb lmin lmax hord]
  by_cases h0 : s ≤ 0
  · left
    simp only [if_pos h0, errMsg]
  · right
    have hoff : s ≤ |p| ∨ s ≤ |q| := by
      rcases hbad with h | h | h
      · exact absurd h h0
      · exact Or.inl h
      · exact Or.inr h
    simp only [if_neg h0, if_pos hoff, errMsg]

/-- C3 witness: the concrete call with `skip=5, poff=5` is rejected with a
skip-block `ValueError`. -/
theorem flct_rejects_invalid_skip_block_witness :
    errMsg (flct ⟨8, 8, List.replicate 64 0⟩ ⟨8, 8, List.replicate 64 0⟩ ⟨"row", true⟩
        1 1 1 false false 0 false (some 5) 5 0 false none false 0 (1/5)) =
        some "Skip value must be greater than zero." ∨
    errMsg (flct ⟨8, 8, List.replicate 64 0⟩ ⟨8, 8, List.replicate 64 0⟩ ⟨"row", true⟩
        1 1 1 false false 0 false (some 5) 5 0 false none false 0 (1/5)) =
        some "The absolute value of poff and qoff must be less than skip." :=
  flct_rejects_invalid_skip_block ⟨8, 8, List.replicate 64 0⟩ ⟨8, 8, List.replicate 64 0⟩
    ⟨"row", true⟩ 1 1 1 false false 0 false 5 5 0 false none false 0 (1/5)
    (by decide) (by decide)

/-- C6: with `skip` set to a valid positive value and offsets of magnitude
strictly below `skip`, a negative offset is passed onward to the
computation as `skip - |offset|`, while a non-negative offset is passed
through unchanged. -/
theorem flct_negative_offsets_remapped
    (i1 i2 : Image) (ord : PyStr) (dt ds σ : Rat) (qt bc : Bool) (th : Rat) (ab : Bool)
    (s p q : Int) (ip : Bool) (kr : Option Rat) (pcb : Bool) (lmin lmax : Rat)
    (hord : pyLower ord.val ∈ (["row", "column"] : List String))
    (h0 : 0 < s) (hp : |p| < s) (hq : |q| < s)
    (hok : isOkB (flct i1 i2 ord dt ds σ qt bc th ab (some s) p q ip kr pcb lmin lmax) = true) :
    callOffsets (flct i1 i2 ord dt ds σ qt bc th ab (some s) p q ip kr pcb lmin lmax) =
      some ((if p < 0 then s - |p| else p), (if q < 0 then s - |q| else q)) := by
  rw [flct_some_skip i1 i2 ord dt ds σ qt bc th ab s p q ip kr pcb lmin lmax hord] at hok ⊢
  rw [if_neg (by omega : ¬ s ≤ 0), if_neg (by omega : ¬ (s ≤ |p| ∨ s ≤ |q|))] at hok ⊢
  rw [flctAfterSkip_callOffsets _ _ dt ds σ th _ s p q _ kr _ _ pcb lmin lmax hok]
  simp [remapOffset]

/-- C6 witness: at a successful concrete call with `skip=4, poff=-2,
qoff=1`, the offsets passed to the engine are `(2, 1)`. -/
theorem flct_negative_offsets_remapped_witness :
    callOffsets (flct ⟨5, 5, List.replicate 25 0⟩ ⟨5, 5, List.replicate 25 0⟩ ⟨"row", true⟩
        1 1 1 false false 0 false (some 4) (-2) 1 false none false 0 (1/5)) =
      some (2, 1) :=
  (flct_negative_offsets_remapped ⟨5, 5, List.replicate 25 0⟩ ⟨5, 5, List.replicate 25 0⟩
    ⟨"row", true⟩ 1 1 1 false false 0 false 4 (-2) 1 false none false 0 (1/5)
    (by decide) (by decide) (by decide) (by decide) (by decide)).trans (by decide)

/-- C10: for every call with `sigma = 0` and `skip` set to any positive
value with valid offsets (and a valid `kr`), the call raises the
dimension `ValueError` regardless of the actual image dimensions, because
both internal dimensions are replaced by 1 before the skip check. -/
theorem flct_sigma_zero_skip_always_fails
    (i1 i2 : Image) (ord : PyStr) (dt ds σ : Rat) (qt bc : Bool) (th : Rat) (ab : Bool)
    (s p q : Int) (ip : Bool) (kr : Option Rat) (pcb : Bool) (lmin lmax : Rat)
    (hord : pyLower ord.val ∈ (["row", "column"] : List String))
    (hσ : σ = 0) (h0 : 0 < s) (hp : |p| < s) (hq : |q| < s)
    (hkr : ∀ k, kr = some k → 0 < k ∧ k < 20) :
    errMsg (flct i1 i2 ord dt ds σ qt bc th ab (some s) p q ip kr pcb lmin lmax) =
      some "Skip is greater than the input dimensions" := by
  rw [flct_some_skip i1 i2 ord dt ds σ qt bc th ab s p q ip kr pcb lmin lmax hord]
  rw [if_neg (by omega : ¬ s ≤ 0), if_neg (by omega : ¬ (s ≤ |p| ∨ s ≤ |q|))]
  have hdim : ∀ j1 j2 : Image, ∀ k f,
      flctAfterKr j1 j2 dt ds σ th (if ab then 1 else 0) s p q (if ip then 1 else 0)
        k f (if bc then 1 else 0) (if qt then 0 else 1) pcb lmin lmax =
      .error (.valueError "Skip is greater than the input dimensions") := by
    intro j1 j2 k f
    rw [flctAfterKr_eq]
    rw [if_pos]
    simp [effDim, hσ]
    omega
  rcases kr with _ | k
  · dsimp only [flctAfterSkip]
    rw [hdim]
    rfl
  · dsimp only [flctAfterSkip]
    rcases hkr k rfl with ⟨hk1, hk2⟩
    rw [if_neg (by push_neg; constructor <;> linarith : ¬ (k ≤ 0 ∨ 20 ≤ k))]
    rw [hdim]
    rfl

/-- C10 witness: images are 10 by 10 and `skip=3` is well below them, yet
with `sigma=0` the call fails with the dimension error. -/
theorem flct_sigma_zero_skip_always_fails_witness :
    errMsg (flct ⟨10, 10, List.replicate 100 0⟩ ⟨10, 10, List.replicate 100 0⟩ ⟨"row", true⟩
        1 1 0 false false 0 false (some 3) 0 0 false none false 0 (1/5)) =
      some "Skip is greater than the input dimensions" :=
  flct_sigma_zero_skip_always_fails ⟨10, 10, List.replicate 100 0⟩
    ⟨10, 10, List.replicate 100 0⟩ ⟨"row", true⟩ 1 1 0 false false 0 false 3 0 0 false
    none false 0 (1/5) (by decide) (by decide) (by decide) (by decide) (by decide)
    (by intro k hk; cases hk)

lemma images_fst_nx (c : Bool) (i1 i2 : Image) :
    ((if c then column_row_of_two i1 i2 else (i1, i2)).1).nx = i1.nx := by
  cases c <;> rfl

lemma images_snd_ny (c : Bool) (i1 i2 : Image) :
    ((if c then column_row_of_two i1 i2 else (i1, i2)).2).ny = i2.ny := by
  cases c <;> rfl

lemma effDim_ne (σ : Rat) (d : Nat) (hσ : σ ≠ 0) : effDim σ d = d :=
  if_neg hσ

/-- C4: for every call to `flct` with `kr` set, a `kr` outside the open
interval (0, 20) makes the call fail with a `ValueError` (in particular
`kr=25` is rejected); a `kr` strictly between 0 and 20 raises no error from
this check and enables the low-pass filter (`filter=1`, `kr` passed
through to the engine). -/
theorem flct_kr_validation
    (i1 i2 : Image) (ord : PyStr) (dt ds σ : Rat) (qt bc : Bool) (th : Rat) (ab : Bool)
    (sk : Option Int) (p q : Int) (ip : Bool) (k : Rat) (pcb : Bool) (lmin lmax : Rat)
    (hord : pyLower ord.val ∈ (["row", "column"] : List String)) :
    ((sk = none ∨ ∃ s, sk = some s ∧ 0 < s ∧ |p| < s ∧ |q| < s) → (k ≤ 0 ∨ 20 ≤ k) →
      errMsg (flct i1 i2 ord dt ds σ qt bc th ab sk p q ip (some k) pcb lmin lmax) =
        some "The value of kr must be between 0 and 20.")
    ∧ (0 < k → k < 20 → sk = none → 0 < i1.nx → 0 < i2.ny →
      callFilterKr (flct i1 i2 ord dt ds σ qt bc th ab sk p q ip (some k) pcb lmin lmax) =
        some (1, k)) := by
  constructor
  · intro hskip hbadk
    rcases hsk : sk with _ | s
    · rw [flct_none_skip i1 i2 ord dt ds σ qt bc th ab p q ip (some k) pcb lmin lmax hord]
      dsimp only [flctAfterSkip]
      rw [if_pos hbadk]
      rfl
    · rcases hskip with h | ⟨s', hs', h0, hp', hq'⟩
      · rw [hsk] at h
        cases h
      · rw [hsk] at hs'
        injection hs' with hss
        subst hss
        rw [flct_some_skip i1 i2 ord dt ds σ qt bc th ab s p q ip (some k) pcb lmin lmax hord]
        rw [if_neg (by omega : ¬ s ≤ 0), if_neg (by omega : ¬ (s ≤ |p| ∨ s ≤ |q|))]
        dsimp only [flctAfterSkip]
        rw [if_pos hbadk]
        rfl
  · intro hk1 hk2 hsk h1 h2
    subst hsk
    rw [flct_none_skip i1 i2 ord dt ds σ qt bc th ab p q ip (some k) pcb lmin lmax hord]
    dsimp only [flctAfterSkip]
    rw [if_neg (by push_neg; constructor <;> linarith : ¬ (k ≤ 0 ∨ 20 ≤ k))]
    rw [flctAfterKr_eq]
    rw [if_neg]
    · simp [callFilterKr, resOpt, flctSuccess, mkCall]
    · push_neg
      constructor
      · simp only [images_fst_nx]
        unfold effDim
        split <;> omega
      · simp only [images_snd_ny]
        unfold effDim
        split <;> omega

/-- C4 witness: `kr=25` is rejected at a concrete call, and `kr=3` enables
the filter with no error. -/
theorem flct_kr_validation_witness :
    errMsg (flct ⟨4, 4, List.replicate 16 0⟩ ⟨4, 4, List.replicate 16 0⟩ ⟨"row", true⟩
        1 1 1 false false 0 false none 0 0 false (some 25) false 0 (1/5)) =
      some "The value of kr must be between 0 and 20." ∧
    callFilterKr (flct ⟨4, 4, List.replicate 16 0⟩ ⟨4, 4, List.replicate 16 0⟩ ⟨"row", true⟩
        1 1 1 false false 0 false none 0 0 false (some 3) false 0 (1/5)) =
      some (1, 3) :=
  ⟨(flct_kr_validation ⟨4, 4, List.replicate 16 0⟩ ⟨4, 4, List.replicate 16 0⟩ ⟨"row", true⟩
      1 1 1 false false 0 false none 0 0 false 25 false 0 (1/5) (by decide)).1
      (Or.inl rfl) (Or.inr (by norm_num)),
   (flct_kr_validation ⟨4, 4, List.replicate 16 0⟩ ⟨4, 4, List.replicate 16 0⟩ ⟨"row", true⟩
      1 1 1 false false 0 false none 0 0 false 3 false 0 (1/5) (by decide)).2
      (by norm_num) (by norm_num) rfl (by decide) (by decide)⟩

/-- C5 (amended): for every call with `sigma ≠ 0`, `skip` set to a valid
positive value with valid offsets and a valid `kr`: if `skip` is greater
than or equal to either internal dimension (`image1.shape[0]` or
`image2.shape[1]`, the image dimensions) the call fails with the dimension
`ValueError`; if `skip` is strictly below both, the check passes and the
call succeeds.  (When `sigma = 0` both internal dimensions are replaced by
1 before this check, so it can fail even when `skip` is below the image
dimensions; see the counterexample.) -/
theorem flct_skip_dimension_check
    (i1 i2 : Image) (ord : PyStr) (dt ds σ : Rat) (qt bc : Bool) (th : Rat) (ab : Bool)
    (s p q : Int) (ip : Bool) (kr : Option Rat) (pcb : Bool) (lmin lmax : Rat)
    (hord : pyLower ord.val ∈ (["row", "column"] : List String))
    (hσ : σ ≠ 0) (h0 : 0 < s) (hp : |p| < s) (hq : |q| < s)
    (hkr : ∀ k, kr = some k → 0 < k ∧ k < 20) :
    (((i1.nx : Int) ≤ s ∨ (i2.ny : Int) ≤ s) →
      errMsg (flct i1 i2 ord dt ds σ qt bc th ab (some s) p q ip kr pcb lmin lmax) =
        some "Skip is greater than the input dimensions")
    ∧ (s < (i1.nx : Int) → s < (i2.ny : Int) →
      isOkB (flct i1 i2 ord dt ds σ qt bc th ab (some s) p q ip kr pcb lmin lmax) = true) := by
  rw [flct_some_skip i1 i2 ord dt ds σ qt bc th ab s p q ip kr pcb lmin lmax hord]
  rw [if_neg (by omega : ¬ s ≤ 0), if_neg (by omega : ¬ (s ≤ |p| ∨ s ≤ |q|))]
  have main : ∀ f : Int, ∀ kv : Rat,
      (((i1.nx : Int) ≤ s ∨ (i2.ny : Int) ≤ s) →
        errMsg (flctAfterKr (if pyIs ord "column" then column_row_of_two i1 i2 else (i1, i2)).1
          (if pyIs ord "column" then column_row_of_two i1 i2 else (i1, i2)).2
          dt ds σ th (if ab then 1 else 0) s p q (if ip then 1 else 0) kv f
          (if bc then 1 else 0) (if qt then 0 else 1) pcb lmin lmax) =
          some "Skip is greater than the input dimensions")
      ∧ (s < (i1.nx : Int) → s < (i2.ny : Int) →
        isOkB (flctAfterKr (if pyIs ord "column" then column_row_of_two i1 i2 else (i1, i2)).1
          (if pyIs ord "column" then column_row_of_two i1 i2 else (i1, i2)).2
          dt ds σ th (if ab then 1 else 0) s p q (if ip then 1 else 0) kv f
          (if bc then 1 else 0) (if qt then 0 else 1) pcb lmin lmax) = true) := by
    intro f kv
    rw [flctAfterKr_eq]
    simp only [images_fst_nx, images_snd_ny, effDim_ne _ _ hσ]
    constructor
    · intro hd
      rw [if_pos hd]
      rfl
    · intro hd1 hd2
      rw [if_neg (by omega : ¬ ((i1.nx : Int) ≤ s ∨ (i2.ny : Int) ≤ s))]
      rfl
  rcases kr with _ | k
  · exact main 0 0
  · rcases hkr k rfl with ⟨hk1, hk2⟩
    dsimp only [flctAfterSkip]
    rw [if_neg (by push_neg; constructor <;> linarith : ¬ (k ≤ 0 ∨ 20 ≤ k))]
    exact main 1 k

/-- C5 counterexample: both image dimensions are 3 and `skip=2` is strictly
below them, yet with `sigma = 0` the call fails with the dimension
`ValueError`, contradicting the claim that the check passes whenever
`skip` is strictly less than both image dimensions. -/
theorem flct_skip_dimension_check_counterexample :
    errMsg (flct ⟨3, 3, List.replicate 9 0⟩ ⟨3, 3, List.replicate 9 0⟩ ⟨"row", true⟩
        1 1 0 false false 0 false (some 2) 0 0 false none false 0 (1/5)) =
      some "Skip is greater than the input dimensions" ∧
    (2 : Int) < 3 := by
  constructor
  · decide
  · decide

/-- C5 witness: with `sigma = 1` and 3 by 3 images, `skip=5` is rejected
with the dimension error while `skip=2` succeeds. -/
theorem flct_skip_dimension_check_witness :
    errMsg (flct ⟨3, 3, List.replicate 9 0⟩ ⟨3, 3, List.replicate 9 0⟩ ⟨"row", true⟩
        1 1 1 false false 0 false (some 5) 0 0 false none false 0 (1/5)) =
      some "Skip is greater than the input dimensions" ∧
    isOkB (flct ⟨3, 3, List.replicate 9 0⟩ ⟨3, 3, List.replicate 9 0⟩ ⟨"row", true⟩
        1 1 1 false false 0 false (some 2) 0 0 false none false 0 (1/5)) = true :=
  ⟨(flct_skip_dimension_check ⟨3, 3, List.replicate 9 0⟩ ⟨3, 3, List.replicate 9 0⟩
      ⟨"row", true⟩ 1 1 1 false false 0 false 5 0 0 false none false 0 (1/5)
      (by decide) (by norm_num) (by decide) (by decide) (by decide)
      (by intro kk hkk; cases hkk)).1 (Or.inl (by decide)),
   (flct_skip_dimension_check ⟨3, 3, List.replicate 9 0⟩ ⟨3, 3, List.replicate 9 0⟩
      ⟨"row", true⟩ 1 1 1 false false 0 false 2 0 0 false none false 0 (1/5)
      (by decide) (by norm_num) (by decide) (by decide) (by decide)
      (by intro kk hkk; cases hkk)).2 (by decide) (by decide)⟩

lemma flct_ok_shape
    (i1 i2 : Image) (ord : PyStr) (dt ds σ : Rat) (qt bc : Bool) (th : Rat) (ab : Bool)
    (sk : Option Int) (p q : Int) (ip : Bool) (kr : Option Rat) (pcb : Bool) (lmin lmax : Rat)
    (hok : isOkB (flct i1 i2 ord dt ds σ qt bc th ab sk p q ip kr pcb lmin lmax) = true) :
    outputsShaped (flct i1 i2 ord dt ds σ qt bc th ab sk p q ip kr pcb lmin lmax)
      (effDim σ i1.nx) (effDim σ i2.ny) = true := by
  by_cases hord : pyLower ord.val ∈ (["row", "column"] : List String)
  · rcases sk with _ | s
    · rw [flct_none_skip i1 i2 ord dt ds σ qt bc th ab p q ip kr pcb lmin lmax hord] at hok ⊢
      have h := flctAfterSkip_ok_shape _ _ dt ds σ th _ 0 p q _ kr _ _ pcb lmin lmax hok
      simpa [images_fst_nx, images_snd_ny] using h
    · rw [flct_some_skip i1 i2 ord dt ds σ qt bc th ab s p q ip kr pcb lmin lmax hord] at hok ⊢
      by_cases h0 : s ≤ 0
      · rw [if_pos h0] at hok
        exact absurd hok (by simp [isOkB])
      · rw [if_neg h0] at hok ⊢
        by_cases hoff : s ≤ |p| ∨ s ≤ |q|
        · rw [if_pos hoff] at hok
          exact absurd hok (by simp [isOkB])
        · rw [if_neg hoff] at hok ⊢
          have h := flctAfterSkip_ok_shape _ _ dt ds σ th _ s p q _ kr _ _ pcb lmin lmax hok
          simpa [images_fst_nx, images_snd_ny] using h
  · rw [flct_invalid_order i1 i2 ord dt ds σ qt bc th ab sk p q ip kr pcb lmin lmax hord] at hok
    exact absurd hok (by simp [isOkB])

/-- C1 counterexample: a valid (error-free) call with two inputs of shape
(2, 2) but `sigma = 0` succeeds and returns outputs of shape (1, 1), not
(2, 2): the shape invariant as stated fails on the code. -/
theorem flct_shape_invariant_counterexample :
    isOkB (flct ⟨2, 2, [1, 2, 3, 4]⟩ ⟨2, 2, [1, 2, 3, 4]⟩ ⟨"row", true⟩
        1 1 0 false false 0 false none 0 0 false none false 0 (1/5)) = true ∧
    outputsShaped (flct ⟨2, 2, [1, 2, 3, 4]⟩ ⟨2, 2, [1, 2, 3, 4]⟩ ⟨"row", true⟩
        1 1 0 false false 0 false none 0 0 false none false 0 (1/5)) 2 2 = false ∧
    outputsShaped (flct ⟨2, 2, [1, 2, 3, 4]⟩ ⟨2, 2, [1, 2, 3, 4]⟩ ⟨"row", true⟩
        1 1 0 false false 0 false none 0 0 false none false 0 (1/5)) 1 1 = true := by
  exact ⟨by decide, by decide, by decide⟩

/-- C1 (amended): for every valid call to `flct` with two input images of
shape (nx, ny) and `sigma ≠ 0`, the three returned arrays vx, vy, vm all
have shape (nx, ny), the shape of the inputs.  (With `sigma = 0` the
outputs instead have shape (1, 1); see the counterexample.) -/
theorem flct_shape_invariant
    (i1 i2 : Image) (ord : PyStr) (dt ds σ : Rat) (qt bc : Bool) (th : Rat) (ab : Bool)
    (sk : Option Int) (p q : Int) (ip : Bool) (kr : Option Rat) (pcb : Bool) (lmin lmax : Rat)
    (nx ny : Nat)
    (h1 : i1.nx = nx) (h2 : i1.ny = ny) (h3 : i2.nx = nx) (h4 : i2.ny = ny)
    (hσ : σ ≠ 0)
    (hok : isOkB (flct i1 i2 ord dt ds σ qt bc th ab sk p q ip kr pcb lmin lmax) = true) :
    outputsShaped (flct i1 i2 ord dt ds σ qt bc th ab sk p q ip kr pcb lmin lmax) nx ny = true := by
  have h := flct_ok_shape i1 i2 ord dt ds σ qt bc th ab sk p q ip kr pcb lmin lmax hok
  rwa [effDim_ne _ _ hσ, effDim_ne _ _ hσ, h1, h4] at h

/-- C1 witness: a successful concrete call with 3 by 3 inputs and
`sigma = 1` returns 3 by 3 outputs. -/
theorem flct_shape_invariant_witness :
    outputsShaped (flct ⟨3, 3, List.replicate 9 0⟩ ⟨3, 3, List.replicate 9 0⟩ ⟨"row", true⟩
        1 1 1 false false 0 false none 0 0 false none false 0 (1/5)) 3 3 = true :=
  flct_shape_invariant ⟨3, 3, List.replicate 9 0⟩ ⟨3, 3, List.replicate 9 0⟩ ⟨"row", true⟩
    1 1 1 false false 0 false none 0 0 false none false 0 (1/5) 3 3
    rfl rfl rfl rfl (by norm_num) (by decide)

lemma flct_callImages_general
    (i1 i2 : Image) (ord : PyStr) (dt ds σ : Rat) (qt bc : Bool) (th : Rat) (ab : Bool)
    (sk : Option Int) (p q : Int) (ip : Bool) (kr : Option Rat) (pcb : Bool) (lmin lmax : Rat)
    (hord : pyLower ord.val ∈ (["row", "column"] : List String))
    (hok : isOkB (flct i1 i2 ord dt ds σ qt bc th ab sk p q ip kr pcb lmin lmax) = true) :
    callImages (flct i1 i2 ord dt ds σ qt bc th ab sk p q ip kr pcb lmin lmax) =
      some (if pyIs ord "column" then column_row_of_two i1 i2 else (i1, i2)) := by
  rcases sk with _ | s
  · rw [flct_none_skip i1 i2 ord dt ds σ qt bc th ab p q ip kr pcb lmin lmax hord] at hok ⊢
    have h := flctAfterSkip_callImages _ _ dt ds σ th _ 0 p q _ kr _ _ pcb lmin lmax hok
    simpa using h
  · rw [flct_some_skip i1 i2 ord dt ds σ qt bc th ab s p q ip kr pcb lmin lmax hord] at hok ⊢
    by_cases h0 : s ≤ 0
    · rw [if_pos h0] at hok
      exact absurd hok (by simp [isOkB])
    · rw [if_neg h0] at hok ⊢
      by_cases hoff : s ≤ |p| ∨ s ≤ |q|
      · rw [if_pos hoff] at hok
        exact absurd hok (by simp [isOkB])
      · rw [if_neg hoff] at hok ⊢
        have h := flctAfterSkip_callImages _ _ dt ds σ th _ s p q _ kr _ _ pcb lmin lmax hok
        simpa using h

/-- C2: for every call to `flct` whose `order` argument is the (interned)
literal "column", the byte-level order-swap transform `column_row_of_two`
is applied to both input images before the tracking computation is
invoked; for order "row" (interned or not) both images are passed to the
computation unchanged. -/
theorem flct_column_order_swap
    (i1 i2 : Image) (dt ds σ : Rat) (qt bc : Bool) (th : Rat) (ab : Bool)
    (sk : Option Int) (p q : Int) (ip : Bool) (kr : Option Rat) (pcb : Bool) (lmin lmax : Rat) :
    (isOkB (flct i1 i2 ⟨"column", true⟩ dt ds σ qt bc th ab sk p q ip kr pcb lmin lmax) = true →
      callImages (flct i1 i2 ⟨"column", true⟩ dt ds σ qt bc th ab sk p q ip kr pcb lmin lmax) =
        some (column_row_of_two i1 i2))
    ∧ ∀ b : Bool,
      isOkB (flct i1 i2 ⟨"row", b⟩ dt ds σ qt bc th ab sk p q ip kr pcb lmin lmax) = true →
      callImages (flct i1 i2 ⟨"row", b⟩ dt ds σ qt bc th ab sk p q ip kr pcb lmin lmax) =
        some (i1, i2) := by
  constructor
  · intro hok
    have h := flct_callImages_general i1 i2 ⟨"column", true⟩ dt ds σ qt bc th ab sk p q ip
      kr pcb lmin lmax (by decide) hok
    simpa using h
  · intro b hok
    have h := flct_callImages_general i1 i2 ⟨"row", b⟩ dt ds σ qt bc th ab sk p q ip
      kr pcb lmin lmax
      (show pyLower "row" ∈ (["row", "column"] : List String) by decide) hok
    have hb : pyIs ⟨"row", b⟩ "column" = false := by
      cases b <;> decide
    rw [hb] at h
    simpa using h

/-- C2 witness: at successful concrete calls, the column-order call passes
the swapped images to the engine and the row-order call passes the
originals. -/
theorem flct_column_order_swap_witness :
    (isOkB (flct ⟨2, 2, [1, 2, 3, 4]⟩ ⟨2, 2, [5, 6, 7, 8]⟩ ⟨"column", true⟩
        1 1 1 false false 0 false none 0 0 false none false 0 (1/5)) = true) ∧
    callImages (flct ⟨2, 2, [1, 2, 3, 4]⟩ ⟨2, 2, [5, 6, 7, 8]⟩ ⟨"column", true⟩
        1 1 1 false false 0 false none 0 0 false none false 0 (1/5)) =
      some (column_row_of_two ⟨2, 2, [1, 2, 3, 4]⟩ ⟨2, 2, [5, 6, 7, 8]⟩) ∧
    callImages (flct ⟨2, 2, [1, 2, 3, 4]⟩ ⟨2, 2, [5, 6, 7, 8]⟩ ⟨"row", true⟩
        1 1 1 false false 0 false none 0 0 false none false 0 (1/5)) =
      some (⟨2, 2, [1, 2, 3, 4]⟩, ⟨2, 2, [5, 6, 7, 8]⟩) :=
  ⟨by decide,
   (flct_column_order_swap ⟨2, 2, [1, 2, 3, 4]⟩ ⟨2, 2, [5, 6, 7, 8]⟩
      1 1 1 false false 0 false none 0 0 false none false 0 (1/5)).1 (by decide),
   (flct_column_order_swap ⟨2, 2, [1, 2, 3, 4]⟩ ⟨2, 2, [5, 6, 7, 8]⟩
      1 1 1 false false 0 false none 0 0 false none false 0 (1/5)).2 true (by decide)⟩

/-- C7: for every valid call to `flct` with `sigma = 0` and `skip` unset
(and a valid `kr`), the call succeeds and the returned vx, vy, vm each
have shape (1, 1). -/
theorem flct_sigma_zero_single_output
    (i1 i2 : Image) (ord : PyStr) (dt ds σ : Rat) (qt bc : Bool) (th : Rat) (ab : Bool)
    (p q : Int) (ip : Bool) (kr : Option Rat) (pcb : Bool) (lmin lmax : Rat)
    (hord : pyLower ord.val ∈ (["row", "column"] : List String))
    (hσ : σ = 0)
    (hkr : ∀ k, kr = some k → 0 < k ∧ k < 20) :
    outputsShaped (flct i1 i2 ord dt ds σ qt bc th ab none p q ip kr pcb lmin lmax) 1 1 = true := by
  subst hσ
  rw [flct_none_skip i1 i2 ord dt ds 0 qt bc th ab p q ip kr pcb lmin lmax hord]
  have main : ∀ f : Int, ∀ kv : Rat,
      outputsShaped (flctAfterKr
        (if pyIs ord "column" then column_row_of_two i1 i2 else (i1, i2)).1
        (if pyIs ord "column" then column_row_of_two i1 i2 else (i1, i2)).2
        dt ds 0 th (if ab then 1 else 0) 0 p q (if ip then 1 else 0) kv f
        (if bc then 1 else 0) (if qt then 0 else 1) pcb lmin lmax) 1 1 = true := by
    intro f kv
    rw [flctAfterKr_eq]
    rw [if_neg (by simp [effDim])]
    simp [outputsShaped, flctSuccess, hasShapeB_zeros2, effDim]
  rcases kr with _ | k
  · exact main 0 0
  · dsimp only [flctAfterSkip]
    rcases hkr k rfl with ⟨hk1, hk2⟩
    rw [if_neg (by push_neg; constructor <;> linarith : ¬ (k ≤ 0 ∨ 20 ≤ k))]
    exact main 1 k

/-- C7 witness: a concrete `sigma = 0` call on 4 by 4 inputs returns 1 by 1
outputs. -/
theorem flct_sigma_zero_single_output_witness :
    outputsShaped (flct ⟨4, 4, List.replicate 16 0⟩ ⟨4, 4, List.replicate 16 0⟩ ⟨"row", true⟩
        1 1 0 false false 0 false none 0 0 false none false 0 (1/5)) 1 1 = true :=
  flct_sigma_zero_single_output ⟨4, 4, List.replicate 16 0⟩ ⟨4, 4, List.replicate 16 0⟩
    ⟨"row", true⟩ 1 1 0 false false 0 false 0 0 false none false 0 (1/5)
    (by decide) rfl (by intro k hk; cases hk)

/-- C9: `flct` never validates that the two images share a shape: any call
with `sigma ≠ 0`, `skip` and `kr` unset and positive `image1.shape[0]`,
`image2.shape[1]` succeeds — whatever the remaining dimensions are — and
the outputs have shape `(image1.shape[0], image2.shape[1])`, mixing the
first dimension of the first image with the second dimension of the
second. -/
theorem flct_no_shape_validation
    (i1 i2 : Image) (ord : PyStr) (dt ds σ : Rat) (qt bc : Bool) (th : Rat) (ab : Bool)
    (p q : Int) (ip : Bool) (pcb : Bool) (lmin lmax : Rat)
    (hord : pyLower ord.val ∈ (["row", "column"] : List String))
    (hσ : σ ≠ 0) (h1 : 0 < i1.nx) (h2 : 0 < i2.ny) :
    outputsShaped (flct i1 i2 ord dt ds σ qt bc th ab none p q ip none pcb lmin lmax)
      i1.nx i2.ny = true := by
  rw [flct_none_skip i1 i2 ord dt ds σ qt bc th ab p q ip none pcb lmin lmax hord]
  dsimp only [flctAfterSkip]
  rw [flctAfterKr_eq]
  rw [if_neg (by simp only [images_fst_nx, images_snd_ny, effDim_ne _ _ hσ]; omega)]
  simp [outputsShaped, flctSuccess, hasShapeB_zeros2, images_fst_nx, images_snd_ny,
    effDim_ne _ _ hσ]

/-- C9 witness: a concrete call with a 2 by 3 first image and a 4 by 5
second image succeeds with outputs of shape (2, 5). -/
theorem flct_no_shape_validation_witness :
    outputsShaped (flct ⟨2, 3, List.replicate 6 0⟩ ⟨4, 5, List.replicate 20 0⟩ ⟨"row", true⟩
        1 1 1 false false 0 false none 0 0 false none false 0 (1/5)) 2 5 = true :=
  flct_no_shape_validation ⟨2, 3, List.replicate 6 0⟩ ⟨4, 5, List.replicate 20 0⟩
    ⟨"row", true⟩ 1 1 1 false false 0 false 0 0 false false 0 (1/5)
    (by decide) (by norm_num) (by decide) (by decide)

/-- The `transp` value a successful two-array read passed to the backend. -/
def transpOfRead2 : Except PyErr ReadCall2 → Option Int
  | .ok r => some r.transp
  | .error _ => none

/-- The `transp` value a successful three-array read passed to the backend. -/
def transpOfRead3 : Except PyErr ReadCall3 → Option Int
  | .ok r => some r.transp
  | .error _ => none

/-- The `transp` value a successful write passed to the backend. -/
def transpOfWrite : Except PyErr WriteCall → Option Int
  | .ok r => some r.transp
  | .error _ => none

/-- C8: in `read_2_images`, `read_3_images`, `write_2_images` and
`write_3_images`, any capitalization of "row" or "column" passes the
case-insensitive validation, but the dispatch is an identity test against
the literal "row": `transp = 0` reaches the backend only when the argument
is the interned lowercase string "row"; every other accepted spelling
(e.g. "Row", "ROW") is passed with `transp = 1`. -/
theorem codec_order_dispatch
    (fn : String) (a1 a2 a3 : Image) (ord : PyStr)
    (hord : pyLower ord.val ∈ (["row", "column"] : List String)) :
    transpOfRead2 (read_2_images fn ord) =
      some (if ord.interned = true ∧ ord.val = "row" then 0 else 1) ∧
    transpOfRead3 (read_3_images fn ord) =
      some (if ord.interned = true ∧ ord.val = "row" then 0 else 1) ∧
    transpOfWrite (write_2_images fn a1 a2 ord) =
      some (if ord.interned = true ∧ ord.val = "row" then 0 else 1) ∧
    transpOfWrite (write_3_images fn a1 a2 a3 ord) =
      some (if ord.interned = true ∧ ord.val = "row" then 0 else 1) := by
  have hpy : (pyIs ord "row" = true) ↔ (ord.interned = true ∧ ord.val = "row") := by
    simp [pyIs]
  have key : (if pyIs ord "row" then (0 : Int) else 1) =
      if ord.interned = true ∧ ord.val = "row" then 0 else 1 := by
    by_cases h : ord.interned = true ∧ ord.val = "row"
    · rw [if_pos (hpy.mpr h), if_pos h]
    · rw [if_neg (fun hh => h (hpy.mp hh)), if_neg h]
  refine ⟨?_, ?_, ?_, ?_⟩
  · unfold read_2_images
    rw [if_neg (not_not_intro hord)]
    dsimp only [read_two_images_backend]
    rw [if_neg (by simp)]
    dsimp only [transpOfRead2]
    rw [key]
  · unfold read_3_images
    rw [if_neg (not_not_intro hord)]
    dsimp only [read_three_images_backend]
    rw [if_neg (by simp)]
    dsimp only [transpOfRead3]
    rw [key]
  · unfold write_2_images
    rw [if_neg (not_not_intro hord)]
    dsimp only [write_images_backend]
    rw [if_neg (by simp)]
    dsimp only [transpOfWrite]
    rw [key]
  · unfold write_3_images
    rw [if_neg (not_not_intro hord)]
    dsimp only [write_images_backend]
    rw [if_neg (by simp)]
    dsimp only [transpOfWrite]
    rw [key]

/-- C8 witness: "Row" passes validation in all four functions but reaches
the backend with `transp = 1`, while the interned lowercase "row" yields
`transp = 0`. -/
theorem codec_order_dispatch_witness :
    transpOfRead2 (read_2_images "f" ⟨"Row", true⟩) = some 1 ∧
    transpOfRead3 (read_3_images "f" ⟨"Row", true⟩) = some 1 ∧
    transpOfWrite (write_2_images "f" ⟨1, 1, [0]⟩ ⟨1, 1, [0]⟩ ⟨"Row", true⟩) = some 1 ∧
    transpOfWrite (write_3_images "f" ⟨1, 1, [0]⟩ ⟨1, 1, [0]⟩ ⟨1, 1, [0]⟩ ⟨"Row", true⟩) =
      some 1 ∧
    transpOfRead2 (read_2_images "f" ⟨"row", true⟩) = some 0 := by
  have h := codec_order_dispatch "f" ⟨1, 1, [0]⟩ ⟨1, 1, [0]⟩ ⟨1, 1, [0]⟩ ⟨"Row", true⟩
    (by decide)
  have h2 := codec_order_dispatch "f" ⟨1, 1, [0]⟩ ⟨1, 1, [0]⟩ ⟨1, 1, [0]⟩ ⟨"row", true⟩
    (by decide)
  exact ⟨h.1.trans (by decide), h.2.1.trans (by decide), h.2.2.1.trans (by decide),
    h.2.2.2.trans (by decide), h2.1.trans (by decide)⟩
